
import Mathlib

/-!
Verification of the TikZ editor's shape model, geometry kernel and
document/history engine, shallowly embedded from the Python sources
(`geometry_helpers.py`, `shapes.py`, `TIKZ_GUI_Editor_tool.py`).

Coordinates and angles are modelled as exact reals (`ℝ`); where a claim
only needs exact rational arithmetic (grid snapping) we use `ℚ` so the
embedding stays executable.  Python's `%` on floats with a positive
modulus is `x - m * ⌊x / m⌋`, embedded as `rmod`.  Python's `round` is
round-half-to-even, embedded as `pyround`.
-/

/-- Python float modulus `x % m` (sign follows the divisor): `x - m * ⌊x / m⌋`. -/
noncomputable def rmod (x m : ℝ) : ℝ := x - m * ⌊x / m⌋

/-- Python `round` (round-half-to-even) on exact rationals. -/
def pyround (q : ℚ) : ℤ :=
  if Int.fract q < 1/2 then ⌊q⌋
  else if 1/2 < Int.fract q then ⌊q⌋ + 1
  else if ⌊q⌋ % 2 = 0 then ⌊q⌋ else ⌊q⌋ + 1

/-- Embeds `geometry_helpers.snap` (grid snapping with Python rounding). -/
def snap (x y : ℚ) (enabled : Bool) (step : ℚ) : ℚ × ℚ :=
  if !enabled then (x, y)
  else ((pyround (x / step) : ℚ) * step, (pyround (y / step) : ℚ) * step)

/-- Embeds `geometry_helpers.rotate_point`: rotate `(px, py)` about `(cx, cy)`
by `deg` degrees (canvas coordinates, y grows downward). -/
noncomputable def rotate_point (px py cx cy deg : ℝ) : ℝ × ℝ :=
  let th := deg * (Real.pi / 180)
  let s := Real.sin th
  let c := Real.cos th
  let x := px - cx
  let y := py - cy
  (cx + (x * c - y * s), cy + (x * s + y * c))

/-- Embeds `geometry_helpers.distance` (`math.hypot`). -/
noncomputable def distance (p q : ℝ × ℝ) : ℝ :=
  Real.sqrt ((p.1 - q.1) ^ 2 + (p.2 - q.2) ^ 2)

/-- Python `math.atan2 y x` on exact reals. -/
noncomputable def atan2 (y x : ℝ) : ℝ :=
  if 0 < x then Real.arctan (y / x)
  else if x < 0 then
    (if 0 ≤ y then Real.arctan (y / x) + Real.pi else Real.arctan (y / x) - Real.pi)
  else if 0 < y then Real.pi / 2
  else if y < 0 then -(Real.pi / 2)
  else 0

/-- Python `math.degrees`. -/
noncomputable def degrees (r : ℝ) : ℝ := r * (180 / Real.pi)

/-! ## Shape model (`shapes.py`)

Each Python class becomes a structure carrying its geometric parameters and
the shared presentation attributes; `Arrow` shares `LineSeg`'s state and
manipulation behaviour and `Dot` shares `CircleShape`'s, exactly as the
subclassing in the source only overrides drawing/export/handles. -/

structure LineSeg where
  p0 : ℝ × ℝ
  p1 : ℝ × ℝ
  color : String := "black"
  width : ℝ := 2
  fill_enabled : Bool := false
  fill_color : String := "gray"
  fill_opacity : ℝ := 1

structure QuadBezier where
  p0 : ℝ × ℝ
  p1 : ℝ × ℝ
  c : ℝ × ℝ
  color : String := "black"
  width : ℝ := 2
  fill_enabled : Bool := false
  fill_color : String := "gray"
  fill_opacity : ℝ := 1

structure RectShape where
  p0 : ℝ × ℝ
  p1 : ℝ × ℝ
  color : String := "black"
  width : ℝ := 2
  fill_enabled : Bool := false
  fill_color : String := "gray"
  fill_opacity : ℝ := 1
  angle : ℝ := 0

structure EllipseShape where
  cx : ℝ
  cy : ℝ
  rx : ℝ
  ry : ℝ
  color : String := "black"
  width : ℝ := 2
  fill_enabled : Bool := false
  fill_color : String := "gray"
  fill_opacity : ℝ := 1
  angle : ℝ := 0

structure CircleShape where
  center : ℝ × ℝ
  radius : ℝ
  color : String := "black"
  width : ℝ := 2
  fill_enabled : Bool := false
  fill_color : String := "gray"
  fill_opacity : ℝ := 1

structure TextNode where
  pos : ℝ × ℝ
  text : String := "Hello"
  size : ℝ := 12
  color : String := "black"

structure ArcShape where
  center : ℝ × ℝ
  radius : ℝ
  start_angle : ℝ
  end_angle : ℝ
  color : String := "black"
  width : ℝ := 2
  fill_enabled : Bool := false
  fill_color : String := "gray"
  fill_opacity : ℝ := 1

/-- Embeds `LineSeg.__init__`: note the source stores `fill_enabled = False`
unconditionally, ignoring the caller's argument. -/
def LineSeg.make (p0 p1 : ℝ × ℝ) (color : String) (width : ℝ)
    (fe : Bool) (fc : String) (fo : ℝ) : LineSeg :=
  { p0 := p0, p1 := p1, color := color, width := width,
    fill_enabled := false, fill_color := fc, fill_opacity := fo }

/-- Embeds `QuadBezier.__init__`: the source stores `fill_enabled = False`
unconditionally, ignoring the caller's argument. -/
def QuadBezier.make (p0 p1 c : ℝ × ℝ) (color : String) (width : ℝ)
    (fe : Bool) (fc : String) (fo : ℝ) : QuadBezier :=
  { p0 := p0, p1 := p1, c := c, color := color, width := width,
    fill_enabled := false, fill_color := fc, fill_opacity := fo }

noncomputable def LineSeg.center (l : LineSeg) : ℝ × ℝ :=
  ((l.p0.1 + l.p1.1) / 2, (l.p0.2 + l.p1.2) / 2)

noncomputable def RectShape.center (r : RectShape) : ℝ × ℝ :=
  ((r.p0.1 + r.p1.1) / 2, (r.p0.2 + r.p1.2) / 2)

noncomputable def QuadBezier.centroid (q : QuadBezier) : ℝ × ℝ :=
  ((q.p0.1 + q.p1.1 + q.c.1) / 3, (q.p0.2 + q.p1.2 + q.c.2) / 3)

/-! ### Handle enumeration (`handles` methods)

The source returns flat `(x, y, kind)` triples; we model them as
`((x, y), kind)` pairs. -/

noncomputable def LineSeg.handles (l : LineSeg) : List ((ℝ × ℝ) × String) :=
  let c := l.center
  [(l.p0, "p0"), (l.p1, "p1"), (c, "move"), ((c.1, c.2 - 36), "rotate")]

noncomputable def QuadBezier.handles (q : QuadBezier) : List ((ℝ × ℝ) × String) :=
  let c := q.centroid
  [(q.p0, "p0"), (q.p1, "p1"), (q.c, "control"), (c, "move"), ((c.1, c.2 - 36), "rotate")]

noncomputable def RectShape.handles (r : RectShape) : List ((ℝ × ℝ) × String) :=
  let c := r.center
  [(c, "move"), (rotate_point c.1 (c.2 - 40) c.1 c.2 r.angle, "rotate")]

noncomputable def EllipseShape.handles (e : EllipseShape) : List ((ℝ × ℝ) × String) :=
  [((e.cx, e.cy), "move"), (rotate_point e.cx (e.cy - 40) e.cx e.cy e.angle, "rotate")]

noncomputable def CircleShape.handles (c : CircleShape) : List ((ℝ × ℝ) × String) :=
  [(c.center, "move"), ((c.center.1 + c.radius, c.center.2), "radius"),
   ((c.center.1, c.center.2 - 40), "rotate")]

def TextNode.handles (t : TextNode) : List ((ℝ × ℝ) × String) :=
  [(t.pos, "move")]

/-- Handles of a `Dot` (a `CircleShape` subclass overriding `handles`). -/
def dotHandles (c : CircleShape) : List ((ℝ × ℝ) × String) :=
  [(c.center, "move")]

noncomputable def ArcShape.handles (a : ArcShape) : List ((ℝ × ℝ) × String) :=
  let cx := a.center.1
  let cy := a.center.2
  let start_rad := a.start_angle * (Real.pi / 180)
  let end_rad := a.end_angle * (Real.pi / 180)
  [((cx, cy), "move"),
   ((cx + a.radius * Real.cos start_rad, cy + a.radius * Real.sin start_rad), "start"),
   ((cx + a.radius * Real.cos end_rad, cy + a.radius * Real.sin end_rad), "end")]

/-! ### Geometry mutation (`move_by`, `rotate_by`, `rotate_to`) -/

noncomputable def LineSeg.move_by (l : LineSeg) (dx dy : ℝ) : LineSeg :=
  { l with p0 := (l.p0.1 + dx, l.p0.2 + dy), p1 := (l.p1.1 + dx, l.p1.2 + dy) }

noncomputable def LineSeg.rotate_by (l : LineSeg) (ddeg : ℝ) : LineSeg :=
  let c := l.center
  { l with p0 := rotate_point l.p0.1 l.p0.2 c.1 c.2 ddeg,
           p1 := rotate_point l.p1.1 l.p1.2 c.1 c.2 ddeg }

def LineSeg.rotate_to (l : LineSeg) (deg : ℝ) : LineSeg := l

noncomputable def QuadBezier.move_by (q : QuadBezier) (dx dy : ℝ) : QuadBezier :=
  { q with p0 := (q.p0.1 + dx, q.p0.2 + dy), p1 := (q.p1.1 + dx, q.p1.2 + dy),
           c := (q.c.1 + dx, q.c.2 + dy) }

noncomputable def QuadBezier.rotate_by (q : QuadBezier) (ddeg : ℝ) : QuadBezier :=
  let cen := q.centroid
  { q with p0 := rotate_point q.p0.1 q.p0.2 cen.1 cen.2 ddeg,
           p1 := rotate_point q.p1.1 q.p1.2 cen.1 cen.2 ddeg,
           c := rotate_point q.c.1 q.c.2 cen.1 cen.2 ddeg }

def QuadBezier.rotate_to (q : QuadBezier) (deg : ℝ) : QuadBezier := q

noncomputable def RectShape.move_by (r : RectShape) (dx dy : ℝ) : RectShape :=
  { r with p0 := (r.p0.1 + dx, r.p0.2 + dy), p1 := (r.p1.1 + dx, r.p1.2 + dy) }

noncomputable def RectShape.rotate_by (r : RectShape) (ddeg : ℝ) : RectShape :=
  { r with angle := rmod (r.angle + ddeg) 360 }

noncomputable def RectShape.rotate_to (r : RectShape) (deg : ℝ) : RectShape :=
  { r with angle := rmod deg 360 }

noncomputable def EllipseShape.move_by (e : EllipseShape) (dx dy : ℝ) : EllipseShape :=
  { e with cx := e.cx + dx, cy := e.cy + dy }

noncomputable def EllipseShape.rotate_by (e : EllipseShape) (ddeg : ℝ) : EllipseShape :=
  { e with angle := rmod (e.angle + ddeg) 360 }

noncomputable def EllipseShape.rotate_to (e : EllipseShape) (deg : ℝ) : EllipseShape :=
  { e with angle := rmod deg 360 }

noncomputable def CircleShape.move_by (c : CircleShape) (dx dy : ℝ) : CircleShape :=
  { c with center := (c.center.1 + dx, c.center.2 + dy) }

def CircleShape.rotate_by (c : CircleShape) (ddeg : ℝ) : CircleShape := c

def CircleShape.rotate_to (c : CircleShape) (deg : ℝ) : CircleShape := c

noncomputable def TextNode.move_by (t : TextNode) (dx dy : ℝ) : TextNode :=
  { t with pos := (t.pos.1 + dx, t.pos.2 + dy) }

def TextNode.rotate_by (t : TextNode) (ddeg : ℝ) : TextNode := t

def TextNode.rotate_to (t : TextNode) (deg : ℝ) : TextNode := t

noncomputable def ArcShape.move_by (a : ArcShape) (dx dy : ℝ) : ArcShape :=
  { a with center := (a.center.1 + dx, a.center.2 + dy) }

noncomputable def ArcShape.rotate_by (a : ArcShape) (ddeg : ℝ) : ArcShape :=
  { a with start_angle := rmod (a.start_angle + ddeg) 360,
           end_angle := rmod (a.end_angle + ddeg) 360 }

noncomputable def ArcShape.rotate_to (a : ArcShape) (deg : ℝ) : ArcShape :=
  let delta := rmod (deg - a.start_angle) 360
  { a with start_angle := rmod deg 360,
           end_angle := rmod (a.end_angle + delta) 360 }

/-! ### Handle dragging (`on_handle_drag` methods) -/

noncomputable def LineSeg.on_handle_drag (l : LineSeg) (kind : String) (x y : ℝ) : LineSeg :=
  if kind = "p0" then { l with p0 := (x, y) }
  else if kind = "p1" then { l with p1 := (x, y) }
  else l

noncomputable def QuadBezier.on_handle_drag (q : QuadBezier) (kind : String) (x y : ℝ) :
    QuadBezier :=
  if kind = "p0" then { q with p0 := (x, y) }
  else if kind = "p1" then { q with p1 := (x, y) }
  else if kind = "control" then { q with c := (x, y) }
  else q

def RectShape.on_handle_drag (r : RectShape) (kind : String) (x y : ℝ) : RectShape := r

def EllipseShape.on_handle_drag (e : EllipseShape) (kind : String) (x y : ℝ) :
    EllipseShape := e

noncomputable def CircleShape.on_handle_drag (c : CircleShape) (kind : String) (x y : ℝ) :
    CircleShape :=
  if kind = "radius" then { c with radius := max 0 (distance c.center (x, y)) }
  else c

noncomputable def TextNode.on_handle_drag (t : TextNode) (kind : String) (x y : ℝ) :
    TextNode :=
  if kind = "move" then { t with pos := (x, y) } else t

noncomputable def ArcShape.on_handle_drag (a : ArcShape) (kind : String) (x y : ℝ) :
    ArcShape :=
  let cx := a.center.1
  let cy := a.center.2
  if kind = "move" then { a with center := (x, y) }
  else if kind = "start" then
    { a with start_angle := rmod (degrees (atan2 (y - cy) (x - cx))) 360 }
  else if kind = "end" then
    { a with end_angle := rmod (degrees (atan2 (y - cy) (x - cx))) 360 }
  else a

/-! ### The closed variant set -/

inductive Shape where
  | line (l : LineSeg)
  | arrow (l : LineSeg)
  | quad (q : QuadBezier)
  | rect (r : RectShape)
  | ellipse (e : EllipseShape)
  | circle (c : CircleShape)
  | dot (c : CircleShape)
  | text (t : TextNode)
  | arc (a : ArcShape)

noncomputable def Shape.handles : Shape → List ((ℝ × ℝ) × String)
  | .line l => l.handles
  | .arrow l => l.handles
  | .quad q => q.handles
  | .rect r => r.handles
  | .ellipse e => e.handles
  | .circle c => c.handles
  | .dot c => dotHandles c
  | .text t => t.handles
  | .arc a => a.handles

noncomputable def Shape.rotate_by : Shape → ℝ → Shape
  | .line l, d => .line (l.rotate_by d)
  | .arrow l, d => .arrow (l.rotate_by d)
  | .quad q, d => .quad (q.rotate_by d)
  | .rect r, d => .rect (r.rotate_by d)
  | .ellipse e, d => .ellipse (e.rotate_by d)
  | .circle c, d => .circle (c.rotate_by d)
  | .dot c, d => .dot (c.rotate_by d)
  | .text t, d => .text (t.rotate_by d)
  | .arc a, d => .arc (a.rotate_by d)

noncomputable def Shape.rotate_to : Shape → ℝ → Shape
  | .line l, d => .line (l.rotate_to d)
  | .arrow l, d => .arrow (l.rotate_to d)
  | .quad q, d => .quad (q.rotate_to d)
  | .rect r, d => .rect (r.rotate_to d)
  | .ellipse e, d => .ellipse (e.rotate_to d)
  | .circle c, d => .circle (c.rotate_to d)
  | .dot c, d => .dot (c.rotate_to d)
  | .text t, d => .text (t.rotate_to d)
  | .arc a, d => .arc (a.rotate_to d)

noncomputable def Shape.on_handle_drag : Shape → String → ℝ → ℝ → Shape
  | .line l, k, x, y => .line (l.on_handle_drag k x y)
  | .arrow l, k, x, y => .arrow (l.on_handle_drag k x y)
  | .quad q, k, x, y => .quad (q.on_handle_drag k x y)
  | .rect r, k, x, y => .rect (r.on_handle_drag k x y)
  | .ellipse e, k, x, y => .ellipse (e.on_handle_drag k x y)
  | .circle c, k, x, y => .circle (c.on_handle_drag k x y)
  | .dot c, k, x, y => .dot (c.on_handle_drag k x y)
  | .text t, k, x, y => .text (t.on_handle_drag k x y)
  | .arc a, k, x, y => .arc (a.on_handle_drag k x y)

/-! ## Document & history engine (`TIKZ_GUI_Editor_tool.py`)

The Python lists hold shape objects compared by identity (`is`); we model
object identities as elements of an arbitrary type `α` with decidable
equality (each live Python object is a distinct value). -/

inductive Act (α : Type) where
  | add (sh : α) (idx : ℕ)
  | remove (sh : α) (idx : Option ℤ)
  | clearAll (snapshot : List α)
deriving DecidableEq

structure EditorState (α : Type) where
  shapes : List α
  actions : List (Act α)
  selected : Option α
deriving DecidableEq

/-- Embeds `TikzDesigner._add_shape`: append, record an `add` action with the
insertion index, select the new shape. -/
def addShape {α : Type} (st : EditorState α) (sh : α) : EditorState α :=
  { shapes := st.shapes ++ [sh],
    actions := st.actions ++ [Act.add sh st.shapes.length],
    selected := some sh }

/-- Embeds `TikzDesigner._on_delete_key`: acts on the current selection; the
recorded index is the shape's first position in the document, or missing when
it is not found; removal filters by identity. -/
def onDeleteKey {α : Type} [DecidableEq α] (st : EditorState α) : EditorState α :=
  match st.selected with
  | none => st
  | some sh =>
    let idx : Option ℤ :=
      if sh ∈ st.shapes then some (st.shapes.indexOf sh : ℤ) else none
    { shapes := st.shapes.filter (fun s => s ≠ sh),
      actions := st.actions ++ [Act.remove sh idx],
      selected := none }

/-- Embeds `TikzDesigner.undo`: pop the last action and invert it; an empty
history is a no-op (only a status message); selection is always cleared. -/
def undo {α : Type} [DecidableEq α] (st : EditorState α) : EditorState α :=
  match st.actions.getLast? with
  | none => st
  | some act =>
    let rest := st.actions.dropLast
    match act with
    | Act.add sh _ =>
      { shapes := st.shapes.filter (fun s => s ≠ sh), actions := rest, selected := none }
    | Act.remove sh idx =>
      let shapes' :=
        match idx with
        | none => st.shapes ++ [sh]
        | some i =>
          if i < 0 ∨ i > (st.shapes.length : ℤ) then st.shapes ++ [sh]
          else st.shapes.insertIdx i.toNat sh
      { shapes := shapes', actions := rest, selected := none }
    | Act.clearAll prev =>
      { shapes := prev, actions := rest, selected := none }

/-! ## Interaction controller: Rotate-mode drag frame

Embeds the `_cursor_mode == "rotate"` branch of `TikzDesigner.on_drag`:
every shape inherits the class attribute `angle = 0.0`, so
`hasattr(shape, "angle")` is true for all variants and `rotate_to` is always
invoked — with target `(shape.angle + d) % 360` for Rect/Ellipse and `0`
otherwise — followed unconditionally by `rotate_by(d)`. -/

noncomputable def rotateFrame (s : Shape) (d : ℝ) : Shape :=
  let tgt : ℝ :=
    match s with
    | .rect r => rmod (r.angle + d) 360
    | .ellipse e => rmod (e.angle + d) 360
    | _ => 0
  (s.rotate_to tgt).rotate_by d

/-! ## Export options

The option lists built by the `to_tikz` methods, abstracted from their final
string rendering: each emitted bracket option becomes one `TikzOpt`. -/

inductive TikzOpt where
  | draw (c : String)
  | lineWidth (w : ℝ)
  | arrowTip
  | fill (c : String)
  | fillOpacity (o : ℝ)
  | rotateAround (a : ℝ) (cx cy : ℝ)

def TikzOpt.isFill : TikzOpt → Bool
  | .fill _ => true
  | .fillOpacity _ => true
  | _ => false

def LineSeg.tikzOpts (l : LineSeg) : List TikzOpt :=
  [.draw l.color, .lineWidth l.width]

/-- Option list of `Arrow.to_tikz` (a `LineSeg` subclass adding the tip). -/
def arrowTikzOpts (l : LineSeg) : List TikzOpt :=
  [.draw l.color, .lineWidth l.width, .arrowTip]

def QuadBezier.tikzOpts (q : QuadBezier) : List TikzOpt :=
  [.draw q.color, .lineWidth q.width]

noncomputable def RectShape.tikzOpts (r : RectShape) : List TikzOpt :=
  [TikzOpt.draw r.color, TikzOpt.lineWidth r.width]
    ++ (if r.fill_enabled then
          [TikzOpt.fill r.fill_color]
            ++ (if r.fill_opacity < 1 then [TikzOpt.fillOpacity r.fill_opacity] else [])
        else [])
    ++ (if |r.angle| > 1/1000000000 then
          [TikzOpt.rotateAround (-r.angle) r.center.1 r.center.2]
        else [])

/-! ## Concrete instances used by counterexamples and witnesses -/

/-- An arc centred at the origin (used to exercise the "move" handle drag). -/
noncomputable def arcC1 : ArcShape :=
  { center := (0, 0), radius := 1, start_angle := 0, end_angle := 90 }

/-- A degenerate segment with both endpoints at the origin. -/
noncomputable def lineC7 : LineSeg := { p0 := (0, 0), p1 := (0, 0) }

/-- A circle at the origin with radius 5, as in the spec scenario. -/
noncomputable def circleC8 : CircleShape := { center := (0, 0), radius := 5 }

/-- An editor state whose selection refers to a shape absent from the document. -/
def strayC5 : EditorState ℕ := { shapes := [], actions := [], selected := some 5 }

/-! ## Helper lemmas -/

theorem rmod_eq_fract (x m : ℝ) (hm : m ≠ 0) : rmod x m = m * Int.fract (x / m) := by
  unfold rmod Int.fract
  field_simp

theorem rmod_nonneg (x m : ℝ) (hm : 0 < m) : 0 ≤ rmod x m := by
  rw [rmod_eq_fract x m hm.ne']
  exact mul_nonneg hm.le (Int.fract_nonneg _)

theorem rmod_lt (x m : ℝ) (hm : 0 < m) : rmod x m < m := by
  rw [rmod_eq_fract x m hm.ne']
  calc m * Int.fract (x / m) < m * 1 := by
        exact mul_lt_mul_of_pos_left (Int.fract_lt_one _) hm
    _ = m := mul_one m

theorem rmod_eq_self (x m : ℝ) (hm : 0 < m) (h0 : 0 ≤ x) (h1 : x < m) :
    rmod x m = x := by
  have hfloor : ⌊x / m⌋ = 0 := by
    rw [Int.floor_eq_zero_iff]
    constructor
    · exact div_nonneg h0 hm.le
    · rw [div_lt_one hm]; exact h1
  unfold rmod
  rw [hfloor]
  simp

theorem rmod_rmod (x m : ℝ) (hm : 0 < m) : rmod (rmod x m) m = rmod x m :=
  rmod_eq_self _ m hm (rmod_nonneg x m hm) (rmod_lt x m hm)

theorem rmod_add_rmod (x y m : ℝ) (hm : 0 < m) :
    rmod (rmod x m + y) m = rmod (x + y) m := by
  rw [rmod_eq_fract _ m hm.ne', rmod_eq_fract _ m hm.ne', rmod_eq_fract _ m hm.ne']
  have h1 : (m * Int.fract (x / m) + y) / m = (x + y) / m - (⌊x / m⌋ : ℤ) := by
    unfold Int.fract
    field_simp
    ring
  rw [h1, Int.fract_sub_int]

theorem rmod_int_mul (m : ℝ) (k : ℤ) (hm : 0 < m) : rmod (m * k) m = 0 := by
  rw [rmod_eq_fract _ m hm.ne']
  have h1 : m * (k : ℝ) / m = (k : ℝ) := by field_simp
  rw [h1, Int.fract_intCast, mul_zero]

theorem rmod_sub_rmod_self (x m : ℝ) (hm : 0 < m) : rmod (x - rmod x m) m = 0 := by
  have h1 : x - rmod x m = m * (⌊x / m⌋ : ℤ) := by unfold rmod; ring
  rw [h1, rmod_int_mul _ _ hm]

theorem pyround_abs_le (q : ℚ) : |(pyround q : ℚ) - q| ≤ 1/2 := by
  have hf0 : 0 ≤ Int.fract q := Int.fract_nonneg q
  have hf1 : Int.fract q < 1 := Int.fract_lt_one q
  have hfl : (⌊q⌋ : ℚ) = q - Int.fract q := by
    unfold Int.fract; ring
  unfold pyround
  split_ifs with h1 h2 h3 <;> rw [abs_le] <;> constructor <;>
    push_cast <;> rw [hfl] <;> linarith

theorem snap_coord_abs_le (x step : ℚ) (hs : 0 < step) :
    |(pyround (x / step) : ℚ) * step - x| ≤ step / 2 := by
  have h := pyround_abs_le (x / step)
  have h1 : (pyround (x / step) : ℚ) * step - x
      = ((pyround (x / step) : ℚ) - x / step) * step := by
    field_simp
  rw [h1, abs_mul, abs_of_pos hs]
  calc |(pyround (x / step) : ℚ) - x / step| * step ≤ (1/2) * step := by
        exact mul_le_mul_of_nonneg_right h hs.le
    _ = step / 2 := by ring


theorem filter_ne_of_not_mem {α : Type} [DecidableEq α] {l : List α} {s : α}
    (h : s ∉ l) : l.filter (fun t => t ≠ s) = l := by
  apply List.filter_eq_self.mpr
  intro a ha
  simp only [ne_eq, decide_eq_true_eq]
  intro heq
  exact h (heq ▸ ha)

theorem filter_ne_append_single {α : Type} [DecidableEq α] {l : List α} {s : α}
    (h : s ∉ l) : (l ++ [s]).filter (fun t => t ≠ s) = l := by
  rw [List.filter_append, filter_ne_of_not_mem h]
  simp

/-- Claim C3: adding a shape not already in the document and undoing restores
the document's exact shape sequence, its length, and the history length. -/
theorem add_undo_roundtrip {α : Type} [DecidableEq α] (st : EditorState α) (s : α)
    (h : s ∉ st.shapes) :
    (undo (addShape st s)).shapes = st.shapes ∧
    (undo (addShape st s)).shapes.length = st.shapes.length ∧
    (undo (addShape st s)).actions = st.actions ∧
    (undo (addShape st s)).actions.length = st.actions.length := by
  have hshape : (undo (addShape st s)).shapes = st.shapes := by
    unfold undo addShape
    simp only [List.getLast?_concat, List.dropLast_concat]
    exact filter_ne_append_single h
  have hact : (undo (addShape st s)).actions = st.actions := by
    unfold undo addShape
    simp only [List.getLast?_concat, List.dropLast_concat]
  exact ⟨hshape, by rw [hshape], hact, by rw [hact]⟩

/-- Witness for C3 at a concrete two-shape document. -/
theorem add_undo_roundtrip_witness :
    (2 : ℕ) ∉ [0, 1] ∧
    (undo (addShape ({ shapes := [0, 1], actions := [], selected := none } :
        EditorState ℕ) 2)).shapes = [0, 1] := by
  refine ⟨by decide, ?_⟩
  exact (add_undo_roundtrip { shapes := [0, 1], actions := [], selected := none } 2
    (by decide)).1

theorem indexOf_le_filter_length {α : Type} [DecidableEq α] :
    ∀ (l : List α) (s : α), l.count s = 1 →
      l.indexOf s ≤ (l.filter (fun t => t ≠ s)).length := by
  intro l
  induction l with
  | nil => intro s h; simp at h
  | cons a l ih =>
    intro s h
    by_cases ha : a = s
    · subst ha
      rw [List.indexOf_cons_self]
      exact Nat.zero_le _
    · have hne : s ≠ a := fun heq => ha heq.symm
      rw [List.indexOf_cons_ne l ha]
      have hcount : l.count s = 1 := by
        rw [List.count_cons_of_ne hne] at h
        exact h
      have hfilter : (a :: l).filter (fun t => t ≠ s) = a :: l.filter (fun t => t ≠ s) := by
        simp [List.filter_cons, ha]
      rw [hfilter]
      simp only [List.length_cons, Nat.succ_le_succ_iff]
      exact ih s hcount

theorem insertIdx_indexOf_filter {α : Type} [DecidableEq α] :
    ∀ (l : List α) (s : α), l.count s = 1 →
      (l.filter (fun t => t ≠ s)).insertIdx (l.indexOf s) s = l := by
  intro l
  induction l with
  | nil => intro s h; simp at h
  | cons a l ih =>
    intro s h
    by_cases ha : a = s
    · subst ha
      have hnot : a ∉ l := by
        rw [List.count_cons_self] at h
        exact List.count_eq_zero.mp (by omega)
      rw [List.indexOf_cons_self]
      have hfilter : (a :: l).filter (fun t => t ≠ a) = l := by
        simp only [List.filter_cons, ne_eq, not_true_eq_false, decide_False]
        exact filter_ne_of_not_mem hnot
      rw [hfilter, List.insertIdx_zero]
    · have hne : s ≠ a := fun heq => ha heq.symm
      have hcount : l.count s = 1 := by
        rw [List.count_cons_of_ne hne] at h
        exact h
      rw [List.indexOf_cons_ne l ha]
      have hfilter : (a :: l).filter (fun t => t ≠ s) = a :: l.filter (fun t => t ≠ s) := by
        simp [List.filter_cons, ha]
      rw [hfilter, List.insertIdx_succ_cons, ih s hcount]

/-- Claim C4: undoing a `remove` action re-inserts the recorded shape at its
recorded index, appending instead when the index is missing or out of bounds;
and deleting a (uniquely occurring) selected shape followed by undo restores
the document and the history exactly. -/
theorem remove_undo_reinsert {α : Type} [DecidableEq α] :
    (∀ (shapes : List α) (acts : List (Act α)) (sel : Option α) (sh : α),
      (undo { shapes := shapes, actions := acts ++ [Act.remove sh none],
              selected := sel }).shapes = shapes ++ [sh]) ∧
    (∀ (shapes : List α) (acts : List (Act α)) (sel : Option α) (sh : α) (i : ℤ),
      i < 0 ∨ i > (shapes.length : ℤ) →
      (undo { shapes := shapes, actions := acts ++ [Act.remove sh (some i)],
              selected := sel }).shapes = shapes ++ [sh]) ∧
    (∀ (st : EditorState α) (s : α), st.selected = some s → st.shapes.count s = 1 →
      (undo (onDeleteKey st)).shapes = st.shapes ∧
      (undo (onDeleteKey st)).actions = st.actions) := by
  refine ⟨?_, ?_, ?_⟩
  · intro shapes acts sel sh
    unfold undo
    simp only [List.getLast?_concat, List.dropLast_concat]
  · intro shapes acts sel sh i hi
    unfold undo
    simp only [List.getLast?_concat, List.dropLast_concat]
    rw [if_pos hi]
  · intro st s hsel hcount
    have hmem : s ∈ st.shapes := List.count_pos_iff.mp (by omega)
    have hstep : onDeleteKey st =
        { shapes := st.shapes.filter (fun t => t ≠ s),
          actions := st.actions ++ [Act.remove s (some (st.shapes.indexOf s : ℤ))],
          selected := none } := by
      unfold onDeleteKey
      rw [hsel]
      simp [hmem]
    rw [hstep]
    unfold undo
    simp only [List.getLast?_concat, List.dropLast_concat]
    have hb1 : ¬((st.shapes.indexOf s : ℤ) < 0) :=
      not_lt.mpr (Int.natCast_nonneg _)
    have hlen : st.shapes.indexOf s ≤ (st.shapes.filter (fun t => t ≠ s)).length :=
      indexOf_le_filter_length _ _ hcount
    have hb2 : ¬((st.shapes.indexOf s : ℤ) >
        ((st.shapes.filter (fun t => t ≠ s)).length : ℤ)) := by
      rw [not_lt]
      exact_mod_cast hlen
    rw [if_neg (not_or.mpr ⟨hb1, hb2⟩)]
    constructor
    · rw [Int.toNat_ofNat]
      exact insertIdx_indexOf_filter _ _ hcount
    · trivial

/-- Witness for C4 at a concrete three-shape document with the middle shape
selected and removed. -/
theorem remove_undo_reinsert_witness :
    ([7, 8, 9] : List ℕ).count 8 = 1 ∧
    (undo (onDeleteKey ({ shapes := [7, 8, 9], actions := [], selected := some 8 } :
        EditorState ℕ))).shapes = [7, 8, 9] := by
  refine ⟨by decide, ?_⟩
  exact (remove_undo_reinsert.2.2
    { shapes := [7, 8, 9], actions := [], selected := some 8 } 8 rfl (by decide)).1

/-- Counterexample to claim C5: deleting while the selected shape is absent
from the document is not a full no-op — the history and the selection change. -/
theorem delete_missing_mutates_state :
    ¬((onDeleteKey strayC5).shapes = strayC5.shapes ∧
      (onDeleteKey strayC5).actions = strayC5.actions ∧
      (onDeleteKey strayC5).selected = strayC5.selected) := by
  decide

/-- Claim C5 (amended): with no selection the delete operation really is a
no-op; with a selected shape absent from the document, the document is left
unchanged and no error is signalled, but a `remove` action with a missing
index is still appended to the history and the selection is cleared. -/
theorem delete_missing_spec {α : Type} [DecidableEq α] :
    (∀ st : EditorState α, st.selected = none → onDeleteKey st = st) ∧
    (∀ (st : EditorState α) (s : α), st.selected = some s → s ∉ st.shapes →
      onDeleteKey st =
        { shapes := st.shapes, actions := st.actions ++ [Act.remove s none],
          selected := none }) := by
  constructor
  · intro st hsel
    unfold onDeleteKey
    rw [hsel]
  · intro st s hsel hmem
    unfold onDeleteKey
    rw [hsel]
    simp only [hmem, if_false, filter_ne_of_not_mem hmem]

/-- Witness for C5's amended statement at the concrete stray state. -/
theorem delete_missing_spec_witness :
    (5 : ℕ) ∉ strayC5.shapes ∧
    onDeleteKey strayC5 =
      { shapes := strayC5.shapes, actions := strayC5.actions ++ [Act.remove 5 none],
        selected := none } := by
  refine ⟨by decide, ?_⟩
  exact delete_missing_spec.2 strayC5 5 rfl (by decide)

/-- Claim C6: `rotate_to` is idempotent for every shape variant. -/
theorem rotate_to_idempotent (s : Shape) (t : ℝ) :
    (s.rotate_to t).rotate_to t = s.rotate_to t := by
  cases s with
  | line l => rfl
  | arrow l => rfl
  | quad q => rfl
  | rect r =>
    simp only [Shape.rotate_to, RectShape.rotate_to]
  | ellipse e =>
    simp only [Shape.rotate_to, EllipseShape.rotate_to]
  | circle c => rfl
  | dot c => rfl
  | text tx => rfl
  | arc a =>
    simp only [Shape.rotate_to, ArcShape.rotate_to]
    have h0 : rmod (t - rmod t 360) 360 = 0 :=
      rmod_sub_rmod_self t 360 (by norm_num)
    rw [h0, add_zero, rmod_rmod _ _ (by norm_num)]

/-- Claim C2: one Rotate-mode drag frame with pointer-angle delta `d` leaves a
Rect's or Ellipse's stored angle at `(a + 2 * d) mod 360`: `rotate_to` first
sets `(a + d) mod 360`, then `rotate_by` adds `d` again. -/
theorem rotate_frame_double_update (r : RectShape) (e : EllipseShape) (d : ℝ) :
    rotateFrame (.rect r) d = .rect { r with angle := rmod (r.angle + 2 * d) 360 } ∧
    rotateFrame (.ellipse e) d = .ellipse { e with angle := rmod (e.angle + 2 * d) 360 } := by
  have key : ∀ a : ℝ, rmod (rmod (rmod (a + d) 360) 360 + d) 360 = rmod (a + 2 * d) 360 := by
    intro a
    rw [rmod_rmod _ _ (by norm_num), rmod_add_rmod _ _ _ (by norm_num)]
    congr 1
    ring
  constructor
  · simp only [rotateFrame, Shape.rotate_to, Shape.rotate_by, RectShape.rotate_to,
      RectShape.rotate_by]
    rw [key r.angle]
  · simp only [rotateFrame, Shape.rotate_to, Shape.rotate_by, EllipseShape.rotate_to,
      EllipseShape.rotate_by]
    rw [key e.angle]

/-- Claim C8: the circle's "radius" handle drag sets the radius to
`max 0 (distance center (x, y))`, which is never negative, and dragging a
circle centred at the origin to `(3, 4)` yields radius `5`. -/
theorem circle_radius_drag_spec :
    (∀ (c : CircleShape) (x y : ℝ),
      (c.on_handle_drag "radius" x y).radius = max 0 (distance c.center (x, y)) ∧
      0 ≤ (c.on_handle_drag "radius" x y).radius) ∧
    (circleC8.on_handle_drag "radius" 3 4).radius = 5 := by
  constructor
  · intro c x y
    constructor
    · simp [CircleShape.on_handle_drag]
    · simp only [CircleShape.on_handle_drag, if_pos rfl]
      exact le_max_left 0 _
  · simp only [CircleShape.on_handle_drag, if_pos rfl, circleC8, distance]
    have h : Real.sqrt (((0:ℝ) - 3) ^ 2 + ((0:ℝ) - 4) ^ 2) = 5 := by
      rw [show (((0:ℝ) - 3) ^ 2 + ((0:ℝ) - 4) ^ 2) = 5 ^ 2 by norm_num]
      exact Real.sqrt_sq (by norm_num)
    rw [h]
    norm_num

/-- Claim C9: disabled snapping is the identity; enabled snapping returns in
each coordinate a multiple of the step within half a step of the input
(nearest-multiple rounding, half-to-even at ties); snapping `(13, 27)` to a
step-10 grid gives `(10, 30)`. -/
theorem snap_spec :
    (∀ x y step : ℚ, snap x y false step = (x, y)) ∧
    (∀ x y step : ℚ, 0 < step →
      (∃ k m : ℤ, snap x y true step = ((k : ℚ) * step, (m : ℚ) * step)) ∧
      |(snap x y true step).1 - x| ≤ step / 2 ∧
      |(snap x y true step).2 - y| ≤ step / 2) ∧
    snap 13 27 true 10 = (10, 30) := by
  refine ⟨?_, ?_, by norm_num [snap, pyround, Int.fract]⟩
  · intro x y step
    simp [snap]
  · intro x y step hs
    refine ⟨⟨pyround (x / step), pyround (y / step), by simp [snap]⟩, ?_, ?_⟩
    · simp only [snap, Bool.not_true, if_false]
      exact snap_coord_abs_le x step hs
    · simp only [snap, Bool.not_true, if_false]
      exact snap_coord_abs_le y step hs

/-- Witness for C9's hypothesis-bearing part at `(13, 27)` with step 10. -/
theorem snap_spec_witness :
    (0 : ℚ) < 10 ∧
    |(snap 13 27 true 10).1 - 13| ≤ 10 / 2 ∧
    |(snap 13 27 true 10).2 - 27| ≤ 10 / 2 :=
  ⟨by norm_num, (snap_spec.2.1 13 27 10 (by norm_num)).2.1,
    (snap_spec.2.1 13 27 10 (by norm_num)).2.2⟩

/-- Claim C10: the `LineSeg` and `QuadBezier` constructors discard the
caller's `fill_enabled` argument and store `false`; none of their geometry
operations ever change the flag, and their export option lists contain no
fill directive. -/
theorem line_quad_never_filled :
    (∀ (p0 p1 : ℝ × ℝ) (col : String) (w : ℝ) (fe : Bool) (fc : String) (fo : ℝ),
      (LineSeg.make p0 p1 col w fe fc fo).fill_enabled = false) ∧
    (∀ (p0 p1 c : ℝ × ℝ) (col : String) (w : ℝ) (fe : Bool) (fc : String) (fo : ℝ),
      (QuadBezier.make p0 p1 c col w fe fc fo).fill_enabled = false) ∧
    (∀ (l : LineSeg) (k : String) (x y : ℝ),
      (l.on_handle_drag k x y).fill_enabled = l.fill_enabled ∧
      (l.move_by x y).fill_enabled = l.fill_enabled ∧
      (l.rotate_by x).fill_enabled = l.fill_enabled ∧
      (l.rotate_to x).fill_enabled = l.fill_enabled) ∧
    (∀ (q : QuadBezier) (k : String) (x y : ℝ),
      (q.on_handle_drag k x y).fill_enabled = q.fill_enabled ∧
      (q.move_by x y).fill_enabled = q.fill_enabled ∧
      (q.rotate_by x).fill_enabled = q.fill_enabled ∧
      (q.rotate_to x).fill_enabled = q.fill_enabled) ∧
    (∀ l : LineSeg, (l.tikzOpts.all fun o => !o.isFill) = true) ∧
    (∀ q : QuadBezier, (q.tikzOpts.all fun o => !o.isFill) = true) := by
  refine ⟨fun _ _ _ _ _ _ _ => rfl, fun _ _ _ _ _ _ _ _ => rfl, ?_, ?_, ?_, ?_⟩
  · intro l k x y
    refine ⟨?_, rfl, rfl, rfl⟩
    unfold LineSeg.on_handle_drag
    split_ifs <;> rfl
  · intro q k x y
    refine ⟨?_, rfl, rfl, rfl⟩
    unfold QuadBezier.on_handle_drag
    split_ifs <;> rfl
  · intro l
    rfl
  · intro q
    rfl

/-- Counterexample to claim C1: an arc's "move" handle drag is not a no-op —
it repositions the arc's centre (and a text node's "move" drag repositions
it too), refuting the universally quantified claim. -/
theorem arc_move_drag_not_noop :
    ¬(∀ (s : Shape) (x y : ℝ) (k : String),
        k = "move" ∨ k = "rotate" → s.on_handle_drag k x y = s) := by
  intro h
  have h2 := h (.arc arcC1) 1 2 "move" (Or.inl rfl)
  simp only [Shape.on_handle_drag, ArcShape.on_handle_drag, arcC1] at h2
  norm_num at h2

/-- Claim C1 (amended): `on_handle_drag` with kind "rotate" is a no-op for
every shape variant, and with kind "move" it is a no-op for every variant
except `ArcShape`, whose centre is set to `(x, y)`, and `TextNode`, whose
position is set to `(x, y)`. -/
theorem on_handle_drag_move_rotate_spec (s : Shape) (x y : ℝ) :
    s.on_handle_drag "rotate" x y = s ∧
    s.on_handle_drag "move" x y =
      (match s with
       | .arc a => .arc { a with center := (x, y) }
       | .text t => .text { t with pos := (x, y) }
       | other => other) := by
  cases s <;>
    simp [Shape.on_handle_drag, LineSeg.on_handle_drag, QuadBezier.on_handle_drag,
      RectShape.on_handle_drag, EllipseShape.on_handle_drag, CircleShape.on_handle_drag,
      TextNode.on_handle_drag, ArcShape.on_handle_drag]

/-- Counterexample to claim C7: a `LineSeg`'s rotate handle sits 36 pixels
above its centre, not 40 as the claim states for every variant. -/
theorem line_rotate_handle_at_36 :
    (((0 : ℝ), (-36 : ℝ)), "rotate") ∈ lineC7.handles ∧
    (((0 : ℝ), (-40 : ℝ)), "rotate") ∉ lineC7.handles := by
  constructor
  · norm_num [LineSeg.handles, lineC7, LineSeg.center]
  · norm_num [LineSeg.handles, lineC7, LineSeg.center]

/-- Claim C7 (amended): the rotate handle, where present, is offset 40 pixels
above the centroid for Rect and Ellipse — rotated about the centroid by the
stored angle — and for Circle (unrotated), but only 36 pixels (unrotated)
for LineSeg, Arrow and QuadBezier; Dot, TextNode and ArcShape have none. -/
theorem rotate_handle_placement (s : Shape) :
    (s.handles.filter (fun h => h.2 = "rotate")).map Prod.fst =
      (match s with
       | .line l => [(l.center.1, l.center.2 - 36)]
       | .arrow l => [(l.center.1, l.center.2 - 36)]
       | .quad q => [(q.centroid.1, q.centroid.2 - 36)]
       | .rect r => [rotate_point r.center.1 (r.center.2 - 40) r.center.1 r.center.2 r.angle]
       | .ellipse e => [rotate_point e.cx (e.cy - 40) e.cx e.cy e.angle]
       | .circle c => [(c.center.1, c.center.2 - 40)]
       | .dot _ => []
       | .text _ => []
       | .arc _ => []) := by
  cases s <;>
    simp [Shape.handles, LineSeg.handles, QuadBezier.handles, RectShape.handles,
      EllipseShape.handles, CircleShape.handles, TextNode.handles, dotHandles,
      ArcShape.handles]
